import Mathlib

/-!
Verification of the Pylontech US2000B serial driver
(src/SCP/pylontech_com.py) against its design specification.

The decoders `read_BMS` and `read_SOC` are shallow embeddings of the
identically named methods of class `US2000B`: the raw serial response has
already been tokenised by `re.findall` into the ordered list `rec_int` of
decimal tokens, and each branch below transcribes the literal token
subscripts of the corresponding unrolled branch of the source.  A token
access `rec_int[k]` that is out of range raises `IndexError` in the source,
which the blanket `except:` turns into a printed diagnostic and an implicit
`None` return; this is modelled by the `Option` monad, whose `none`
corresponds exactly to that exceptional path.  The fall-through `else`
branches return the freshly allocated `np.zeros` arrays untouched, modelled
by `List.replicate` of zeros.
-/

namespace SolarControl

/-- One row of the `BMS_array` built by `US2000B.read_BMS`: the four columns
are state of charge, voltage, current and temperature, in the order the
source assigns them. -/
structure ModuleTelemetry where
  stateOfCharge : Nat
  voltage : Nat
  current : Nat
  temperature : Nat
deriving DecidableEq, Repr

/-- One module row of `US2000B.read_BMS`: the four consecutive assignments
`BMS_array[i,0] = rec_int[s]`, `[i,1] = rec_int[v]`, `[i,2] = rec_int[c]`,
`[i,3] = rec_int[t]` of the source, performed in that order.  The literal
subscripts are passed in by each branch of `read_BMS` below. -/
def readModuleRow (rec_int : List Nat) (s v c t : Nat) : Option ModuleTelemetry := do
  let soc ← rec_int[s]?
  let vol ← rec_int[v]?
  let cur ← rec_int[c]?
  let tmp ← rec_int[t]?
  pure ⟨soc, vol, cur, tmp⟩

/-- Shallow embedding of `US2000B.read_BMS` (src/SCP/pylontech_com.py lines
164-380).  Each branch transcribes the literal subscripts of the source:
for module row `i` the source reads `rec_int[8+15i]` into column 0 (SOC),
`rec_int[1+15i]` into column 1 (voltage), `rec_int[2+15i]` into column 2
(current) and `rec_int[3+15i]` into column 3 (temperature), with the
literals 8,23,38,53,68,83,98,113 / 1,16,31,46,61,76,91,106 /
2,17,32,47,62,77,92,107 / 3,18,33,48,63,78,93,108 written out per branch.
An out-of-range subscript is the source's `IndexError`-to-`None` path,
modelled as `none`; `n_modules` outside 1..8 falls through to the `else`
that returns the zero-filled array. -/
def read_BMS (n_modules : Nat) (rec_int : List Nat) : Option (List ModuleTelemetry) :=
  if n_modules = 1 then do
    let m0 ← readModuleRow rec_int 8 1 2 3
    pure [m0]
  else if n_modules = 2 then do
    let m0 ← readModuleRow rec_int 8 1 2 3
    let m1 ← readModuleRow rec_int 23 16 17 18
    pure [m0, m1]
  else if n_modules = 3 then do
    let m0 ← readModuleRow rec_int 8 1 2 3
    let m1 ← readModuleRow rec_int 23 16 17 18
    let m2 ← readModuleRow rec_int 38 31 32 33
    pure [m0, m1, m2]
  else if n_modules = 4 then do
    let m0 ← readModuleRow rec_int 8 1 2 3
    let m1 ← readModuleRow rec_int 23 16 17 18
    let m2 ← readModuleRow rec_int 38 31 32 33
    let m3 ← readModuleRow rec_int 53 46 47 48
    pure [m0, m1, m2, m3]
  else if n_modules = 5 then do
    let m0 ← readModuleRow rec_int 8 1 2 3
    let m1 ← readModuleRow rec_int 23 16 17 18
    let m2 ← readModuleRow rec_int 38 31 32 33
    let m3 ← readModuleRow rec_int 53 46 47 48
    let m4 ← readModuleRow rec_int 68 61 62 63
    pure [m0, m1, m2, m3, m4]
  else if n_modules = 6 then do
    let m0 ← readModuleRow rec_int 8 1 2 3
    let m1 ← readModuleRow rec_int 23 16 17 18
    let m2 ← readModuleRow rec_int 38 31 32 33
    let m3 ← readModuleRow rec_int 53 46 47 48
    let m4 ← readModuleRow rec_int 68 61 62 63
    let m5 ← readModuleRow rec_int 83 76 77 78
    pure [m0, m1, m2, m3, m4, m5]
  else if n_modules = 7 then do
    let m0 ← readModuleRow rec_int 8 1 2 3
    let m1 ← readModuleRow rec_int 23 16 17 18
    let m2 ← readModuleRow rec_int 38 31 32 33
    let m3 ← readModuleRow rec_int 53 46 47 48
    let m4 ← readModuleRow rec_int 68 61 62 63
    let m5 ← readModuleRow rec_int 83 76 77 78
    let m6 ← readModuleRow rec_int 98 91 92 93
    pure [m0, m1, m2, m3, m4, m5, m6]
  else if n_modules = 8 then do
    let m0 ← readModuleRow rec_int 8 1 2 3
    let m1 ← readModuleRow rec_int 23 16 17 18
    let m2 ← readModuleRow rec_int 38 31 32 33
    let m3 ← readModuleRow rec_int 53 46 47 48
    let m4 ← readModuleRow rec_int 68 61 62 63
    let m5 ← readModuleRow rec_int 83 76 77 78
    let m6 ← readModuleRow rec_int 98 91 92 93
    let m7 ← readModuleRow rec_int 113 106 107 108
    pure [m0, m1, m2, m3, m4, m5, m6, m7]
  else
    pure (List.replicate n_modules ⟨0, 0, 0, 0⟩)

/-- Shallow embedding of `US2000B.read_SOC` (src/SCP/pylontech_com.py lines 91-162),
decoding as in `read_BMS` but filling only the state-of-charge column from the
literal subscripts 8, 23, 38, 53, 68, 83, 98, 113 of the source. -/
def read_SOC (n_modules : Nat) (rec_int : List Nat) : Option (List Nat) :=
  if n_modules = 1 then do
    let s0 ← rec_int[8]?
    pure [s0]
  else if n_modules = 2 then do
    let s0 ← rec_int[8]?
    let s1 ← rec_int[23]?
    pure [s0, s1]
  else if n_modules = 3 then do
    let s0 ← rec_int[8]?
    let s1 ← rec_int[23]?
    let s2 ← rec_int[38]?
    pure [s0, s1, s2]
  else if n_modules = 4 then do
    let s0 ← rec_int[8]?
    let s1 ← rec_int[23]?
    let s2 ← rec_int[38]?
    let s3 ← rec_int[53]?
    pure [s0, s1, s2, s3]
  else if n_modules = 5 then do
    let s0 ← rec_int[8]?
    let s1 ← rec_int[23]?
    let s2 ← rec_int[38]?
    let s3 ← rec_int[53]?
    let s4 ← rec_int[68]?
    pure [s0, s1, s2, s3, s4]
  else if n_modules = 6 then do
    let s0 ← rec_int[8]?
    let s1 ← rec_int[23]?
    let s2 ← rec_int[38]?
    let s3 ← rec_int[53]?
    let s4 ← rec_int[68]?
    let s5 ← rec_int[83]?
    pure [s0, s1, s2, s3, s4, s5]
  else if n_modules = 7 then do
    let s0 ← rec_int[8]?
    let s1 ← rec_int[23]?
    let s2 ← rec_int[38]?
    let s3 ← rec_int[53]?
    let s4 ← rec_int[68]?
    let s5 ← rec_int[83]?
    let s6 ← rec_int[98]?
    pure [s0, s1, s2, s3, s4, s5, s6]
  else if n_modules = 8 then do
    let s0 ← rec_int[8]?
    let s1 ← rec_int[23]?
    let s2 ← rec_int[38]?
    let s3 ← rec_int[53]?
    let s4 ← rec_int[68]?
    let s5 ← rec_int[83]?
    let s6 ← rec_int[98]?
    let s7 ← rec_int[113]?
    pure [s0, s1, s2, s3, s4, s5, s6, s7]
  else
    pure (List.replicate n_modules 0)

/-! ### Handshake and liveness probe

`US2000B.initialise` (lines 43-55) and `US2000B.is_connected` (lines 79-88)
both compare `repr(port.read(1000))` against the Python source literal
`str("'\\n\\rpylon>\\n\\rpylon>'")`, i.e. against the `repr` of the
two-prompt byte pattern.  We model a Python 2 byte string as a `List Char`
and `repr` by `pyRepr` below: the characters that occur in the comparison
are escaped exactly as Python 2 does, and every other character is kept
as itself.  Python 2 additionally hex-escapes non-printable bytes, but both
the real `repr` and `pyRepr` are injective codes that agree on the prompt
pattern, so the equality test the source performs has the same value in
the model as in the source on every input. -/

def backslashChar : Char := Char.ofNat 92

def quoteChar : Char := Char.ofNat 39

def lfChar : Char := Char.ofNat 10

def crChar : Char := Char.ofNat 13

def tabChar : Char := Char.ofNat 9

/-- Python 2 `repr` escaping of a single byte (restricted to identity on
bytes outside the escape classes relevant here; see the section comment). -/
def pyEscapeChar (c : Char) : List Char :=
  if c = lfChar then [backslashChar, 'n']
  else if c = crChar then [backslashChar, 'r']
  else if c = tabChar then [backslashChar, 't']
  else if c = backslashChar then [backslashChar, backslashChar]
  else if c = quoteChar then [backslashChar, quoteChar]
  else [c]

/-- Body of the Python 2 `repr` of a byte string (without the surrounding
quotes). -/
def pyEscape (s : List Char) : List Char := (s.map pyEscapeChar).flatten

/-- Python 2 `repr` of a byte string: the escaped body wrapped in single
quotes, as compared by `initialise` and `is_connected`. -/
def pyRepr (s : List Char) : List Char := quoteChar :: (pyEscape s ++ [quoteChar])

/-- Decoder for `pyEscape`, used to show the escape code is injective. -/
def pyUnescape : List Char → Option (List Char)
  | [] => some []
  | c :: rest =>
    if c = backslashChar then
      match rest with
      | [] => none
      | d :: rest2 =>
        if d = 'n' then (pyUnescape rest2).map (fun l => lfChar :: l)
        else if d = 'r' then (pyUnescape rest2).map (fun l => crChar :: l)
        else if d = 't' then (pyUnescape rest2).map (fun l => tabChar :: l)
        else if d = backslashChar then (pyUnescape rest2).map (fun l => backslashChar :: l)
        else if d = quoteChar then (pyUnescape rest2).map (fun l => quoteChar :: l)
        else none
    else (pyUnescape rest).map (fun l => c :: l)

/-- The exact comparison literal of the source,
`str("'\\n\\rpylon>\\n\\rpylon>'")`: a single quote, the characters
backslash-n backslash-r, the text `pylon>`, again backslash-n backslash-r
and `pylon>`, and a closing single quote. -/
def promptReprLiteral : List Char :=
  quoteChar :: backslashChar :: 'n' :: backslashChar :: 'r' ::
    ("pylon>".data ++ backslashChar :: 'n' :: backslashChar :: 'r' ::
      ("pylon>".data ++ [quoteChar]))

/-- The two-prompt byte pattern itself: LF CR `pylon>` LF CR `pylon>`. -/
def promptPattern : List Char :=
  lfChar :: crChar :: ("pylon>".data ++ lfChar :: crChar :: "pylon>".data)

/-- Result of `US2000B.initialise` (lines 43-55) as a function of the bytes
`temp_receive` returned by the post-handshake `temp_port.read(1000)`: the
source returns `repr(temp_receive) == "'\\n\\rpylon>\\n\\rpylon>'"`. -/
def initialise (temp_receive : List Char) : Bool :=
  decide (pyRepr temp_receive = promptReprLiteral)

/-- Result of `US2000B.is_connected` (lines 79-88) as a function of the bytes
returned by `self.__port.read(1000)` after the CR LF probe: the source
performs the same comparison as `initialise`. -/
def is_connected (temp_receive : List Char) : Bool :=
  decide (pyRepr temp_receive = promptReprLiteral)

/-- One interaction of the driver with the serial layer: opening a port at a
baud rate (`serial.Serial(port, baud, ...)`), writing bytes, sleeping,
reading up to a byte budget, or closing the handle. -/
inductive SerialEvent where
  | openPort (baud : Nat)
  | write (data : List Char)
  | sleepSec (s : Nat)
  | read (maxBytes : Nat)
  | close
deriving DecidableEq, Repr

/-- The wake-up frame written by `initialise`:
`~20014682C0048520FCC3` followed by a carriage return. -/
def wakeUpFrame : List Char := "~20014682C0048520FCC3".data ++ [crChar]

/-- The CR LF probe written by `initialise` and `is_connected`. -/
def crlfProbe : List Char := [crChar, lfChar]

/-- The serial interactions of `US2000B.initialise` (lines 43-55), in program
order: open at 1200 baud, write the wake-up frame, `time.sleep(5)`, open the
same path again at 115200 baud (the source reassigns `temp_port` without
closing the first handle), write CR LF, read up to 1000 bytes, close the
second handle. -/
def initialise_trace : List SerialEvent :=
  [SerialEvent.openPort 1200, SerialEvent.write wakeUpFrame,
   SerialEvent.sleepSec 5, SerialEvent.openPort 115200,
   SerialEvent.write crlfProbe, SerialEvent.read 1000, SerialEvent.close]

/-- The serial interactions of `US2000B.is_connected` (lines 79-88), in
program order: write CR LF on the stored port, read up to 1000 bytes.  No
port is opened or closed and the wake-up frame is not written. -/
def is_connected_trace : List SerialEvent :=
  [SerialEvent.write crlfProbe, SerialEvent.read 1000]

/-- The value of the private attribute `self.__port`: the integer `0` set by
`__init__`, or a live `serial.Serial` handle (identified by an id and the
baud rate it was opened at). -/
inductive PortHandle where
  | unopened
  | handle (id : Nat) (baud : Nat)
deriving DecidableEq, Repr

/-- The mutable state of a `US2000B` object: its only attribute is
`self.__port`. -/
structure US2000B where
  port : PortHandle
deriving DecidableEq, Repr

/-- A session on which commands may be issued: `open` has stored a live
handle in `self.__port` (the state the spec calls `Ready`). -/
def Ready (s : US2000B) : Prop := s.port ≠ PortHandle.unopened

/-- State-passing form of `US2000B.is_connected`: the method writes to and
reads from `self.__port` but assigns no attribute, so it returns its result
together with the unchanged object state. -/
def is_connected_step (self : US2000B) (received : List Char) : Bool × US2000B :=
  (is_connected received, self)

/-- State-passing form of `US2000B.initialise`: the whole handshake happens
on the local variable `temp_port`; no attribute of `self` is assigned, so
the object state is returned unchanged alongside the boolean result. -/
def initialise_step (self : US2000B) (received : List Char) : Bool × US2000B :=
  (initialise received, self)

/-- The concrete token stream of the specification example:
`[0,1,2,3,4,5,6,7,100,9,10,11,12,13,14,15,16,17]`. -/
def exampleTokens : List Nat :=
  [0, 1, 2, 3, 4, 5, 6, 7, 100, 9, 10, 11, 12, 13, 14, 15, 16, 17]

/-- The literal token subscripts used by branch `n_modules = n` of
`read_BMS`, transcribed from the source in the order the assignments are
executed (SOC, voltage, current, temperature per module row). -/
def BMS_offsets : Nat → List Nat
  | 1 => [8, 1, 2, 3]
  | 2 => [8, 1, 2, 3, 23, 16, 17, 18]
  | 3 => [8, 1, 2, 3, 23, 16, 17, 18, 38, 31, 32, 33]
  | 4 => [8, 1, 2, 3, 23, 16, 17, 18, 38, 31, 32, 33, 53, 46, 47, 48]
  | 5 => [8, 1, 2, 3, 23, 16, 17, 18, 38, 31, 32, 33, 53, 46, 47, 48,
          68, 61, 62, 63]
  | 6 => [8, 1, 2, 3, 23, 16, 17, 18, 38, 31, 32, 33, 53, 46, 47, 48,
          68, 61, 62, 63, 83, 76, 77, 78]
  | 7 => [8, 1, 2, 3, 23, 16, 17, 18, 38, 31, 32, 33, 53, 46, 47, 48,
          68, 61, 62, 63, 83, 76, 77, 78, 98, 91, 92, 93]
  | 8 => [8, 1, 2, 3, 23, 16, 17, 18, 38, 31, 32, 33, 53, 46, 47, 48,
          68, 61, 62, 63, 83, 76, 77, 78, 98, 91, 92, 93, 113, 106, 107, 108]
  | _ => []

/-! ### Helper lemmas -/

/-- An in-range optional lookup returns the defaulted lookup. -/
theorem tok_some (t : List Nat) (k : Nat) (h : k < t.length) :
    t[k]? = some (t.getD k 0) := by
  simp [List.getD_eq_getElem?_getD, List.getElem?_eq_getElem h]

/-- Unfolding `pyUnescape` on a character that is not the escape
introducer. -/
theorem pyUnescape_cons_plain (c : Char) (t : List Char) (h : c ≠ backslashChar) :
    pyUnescape (c :: t) = (pyUnescape t).map (fun l => c :: l) := by
  rw [pyUnescape.eq_def]
  simp [h]

/-- Unfolding `pyUnescape` on an escape introducer followed by a
selector character. -/
theorem pyUnescape_cons_esc (d : Char) (t : List Char) :
    pyUnescape (backslashChar :: d :: t) =
      if d = 'n' then (pyUnescape t).map (fun l => lfChar :: l)
      else if d = 'r' then (pyUnescape t).map (fun l => crChar :: l)
      else if d = 't' then (pyUnescape t).map (fun l => tabChar :: l)
      else if d = backslashChar then (pyUnescape t).map (fun l => backslashChar :: l)
      else if d = quoteChar then (pyUnescape t).map (fun l => quoteChar :: l)
      else none := by
  rw [pyUnescape.eq_def]
  simp

/-- Decoding an escaped string recovers the original: `pyUnescape` is a left
inverse of `pyEscape`, hence `pyEscape` is injective. -/
theorem pyUnescape_pyEscape (s : List Char) : pyUnescape (pyEscape s) = some s := by
  induction s with
  | nil => rfl
  | cons c t ih =>
    have hstep : pyEscape (c :: t) = pyEscapeChar c ++ pyEscape t := by
      simp [pyEscape]
    rw [hstep]
    by_cases h1 : c = lfChar
    · subst h1
      rw [show pyEscapeChar lfChar = [backslashChar, 'n'] from by decide]
      rw [List.cons_append, List.cons_append, List.nil_append, pyUnescape_cons_esc]
      simp +decide [ih]
    · by_cases h2 : c = crChar
      · subst h2
        rw [show pyEscapeChar crChar = [backslashChar, 'r'] from by decide]
        rw [List.cons_append, List.cons_append, List.nil_append, pyUnescape_cons_esc]
        simp +decide [ih]
      · by_cases h3 : c = tabChar
        · subst h3
          rw [show pyEscapeChar tabChar = [backslashChar, 't'] from by decide]
          rw [List.cons_append, List.cons_append, List.nil_append, pyUnescape_cons_esc]
          simp +decide [ih]
        · by_cases h4 : c = backslashChar
          · subst h4
            rw [show pyEscapeChar backslashChar = [backslashChar, backslashChar] from by decide]
            rw [List.cons_append, List.cons_append, List.nil_append, pyUnescape_cons_esc]
            simp +decide [ih]
          · by_cases h5 : c = quoteChar
            · subst h5
              rw [show pyEscapeChar quoteChar = [backslashChar, quoteChar] from by decide]
              rw [List.cons_append, List.cons_append, List.nil_append, pyUnescape_cons_esc]
              simp +decide [ih]
            · rw [show pyEscapeChar c = [c] from by simp [pyEscapeChar, h1, h2, h3, h4, h5]]
              rw [List.cons_append, List.nil_append, pyUnescape_cons_plain c _ h4]
              simp [ih]

theorem pyEscape_injective {a b : List Char} (h : pyEscape a = pyEscape b) : a = b := by
  have := congrArg pyUnescape h
  rw [pyUnescape_pyEscape, pyUnescape_pyEscape] at this
  exact Option.some.inj this

theorem pyRepr_injective {a b : List Char} (h : pyRepr a = pyRepr b) : a = b := by
  unfold pyRepr at h
  have h2 := List.tail_eq_of_cons_eq h
  exact pyEscape_injective (List.append_cancel_right h2)

/-- The comparison literal of the source is exactly the `pyRepr` of the
two-prompt pattern. -/
theorem promptReprLiteral_eq : promptReprLiteral = pyRepr promptPattern := by decide

/-! ### Claim theorems -/

/-- Claim C4: `initialise` returns `true` if and only if the bytes read
after the handshake (wake-up frame at 1200 baud, settle delay, reopen at
115200 baud, CR LF probe) are byte-for-byte the expected two-prompt
pattern; any truncated, extended or timeout-shortened read yields
`false`. -/
theorem initialise_true_iff (r : List Char) :
    initialise r = true ↔ r = promptPattern := by
  unfold initialise
  rw [decide_eq_true_iff]
  constructor
  · intro h
    rw [promptReprLiteral_eq] at h
    exact pyRepr_injective h
  · intro h
    rw [h, promptReprLiteral_eq]

theorem initialise_true_iff_witness : initialise promptPattern = true :=
  (initialise_true_iff promptPattern).mpr rfl

/-- Claim C6: `is_connected` on a ready session returns true exactly when
the bytes read after a fresh CR LF probe equal the same two-prompt pattern
`initialise` checks, and its serial interactions contain no port opening
(hence no baud switch) and no wake-up frame write. -/
theorem is_connected_true_iff (r : List Char) (b : Nat) :
    (is_connected r = true ↔ r = promptPattern) ∧
    SerialEvent.openPort b ∉ is_connected_trace ∧
    SerialEvent.write wakeUpFrame ∉ is_connected_trace := by
  refine ⟨?_, ?_, by decide⟩
  · unfold is_connected
    rw [decide_eq_true_iff]
    constructor
    · intro h
      rw [promptReprLiteral_eq] at h
      exact pyRepr_injective h
    · intro h
      rw [h, promptReprLiteral_eq]
  · simp [is_connected_trace]

theorem is_connected_true_iff_witness :
    (is_connected promptPattern = true ↔ promptPattern = promptPattern) ∧
    SerialEvent.openPort 1200 ∉ is_connected_trace ∧
    SerialEvent.write wakeUpFrame ∉ is_connected_trace :=
  is_connected_true_iff promptPattern 1200

/-- Claim C7 (refuted by the code): in the serial trace of `initialise` the
1200-baud handle is not closed before the 115200-baud open.  The first four
events are the low-baud open, the wake-up write, the settle sleep and the
high-baud open, with no close among them, and the whole handshake contains
a single close for its two opens. -/
theorem initialise_trace_no_close_before_reopen :
    initialise_trace.take 4 =
      [SerialEvent.openPort 1200, SerialEvent.write wakeUpFrame,
       SerialEvent.sleepSec 5, SerialEvent.openPort 115200] ∧
    SerialEvent.close ∉ initialise_trace.take 4 ∧
    initialise_trace.count SerialEvent.close = 1 := by decide

/-- Claim C8: a liveness probe never mutates the session object: on any
ready session, `is_connected` leaves the stored port handle exactly as it
was, whatever boolean it returns. -/
theorem is_connected_preserves_state (s : US2000B) (r : List Char)
    (_h : Ready s) : (is_connected_step s r).2 = s := rfl

theorem is_connected_preserves_state_witness :
    Ready ⟨PortHandle.handle 1 115200⟩ ∧
    (is_connected_step ⟨PortHandle.handle 1 115200⟩ []).2 =
      ⟨PortHandle.handle 1 115200⟩ :=
  ⟨by simp [Ready],
   is_connected_preserves_state ⟨PortHandle.handle 1 115200⟩ [] (by simp [Ready])⟩

/-- Claim C10: `initialise` performs the whole handshake on its local
`temp_port` handles and never assigns `self.__port`: the binding
established by a prior `open` (or the unopened initial state) is the same
after any call, whether it returns true or false. -/
theorem initialise_preserves_port (s : US2000B) (r : List Char) :
    (initialise_step s r).2 = s := rfl

theorem initialise_preserves_port_witness :
    (initialise_step ⟨PortHandle.unopened⟩ []).2 = ⟨PortHandle.unopened⟩ :=
  initialise_preserves_port ⟨PortHandle.unopened⟩ []

/-- Success form of `readModuleRow` when all four subscripts are in
range. -/
theorem readModuleRow_some (t : List Nat) (s v c d : Nat)
    (hs : s < t.length) (hv : v < t.length) (hc : c < t.length)
    (hd : d < t.length) :
    readModuleRow t s v c d =
      some ⟨t.getD s 0, t.getD v 0, t.getD c 0, t.getD d 0⟩ := by
  unfold readModuleRow
  rw [tok_some t s hs]
  simp only [tok_some t v hv, tok_some t c hc, tok_some t d hd]
  rfl

/-- Evaluation of the `n_modules = 1` branch of `read_BMS` on a stream of
at least 9 tokens. -/
theorem read_BMS_1 (t : List Nat) (h : 9 ≤ t.length) :
    read_BMS 1 t =
      some [⟨t.getD 8 0, t.getD 1 0, t.getD 2 0, t.getD 3 0⟩] := by
  unfold read_BMS
  simp only [readModuleRow_some t 8 1 2 3 (by omega) (by omega) (by omega) (by omega)]
  rfl

/-- Evaluation of the `n_modules = 2` branch of `read_BMS` on a stream of
at least 24 tokens. -/
theorem read_BMS_2 (t : List Nat) (h : 24 ≤ t.length) :
    read_BMS 2 t =
      some [⟨t.getD 8 0, t.getD 1 0, t.getD 2 0, t.getD 3 0⟩,
       ⟨t.getD 23 0, t.getD 16 0, t.getD 17 0, t.getD 18 0⟩] := by
  unfold read_BMS
  simp only [readModuleRow_some t 8 1 2 3 (by omega) (by omega) (by omega) (by omega),
             readModuleRow_some t 23 16 17 18 (by omega) (by omega) (by omega) (by omega)]
  rfl

/-- Evaluation of the `n_modules = 3` branch of `read_BMS` on a stream of
at least 39 tokens. -/
theorem read_BMS_3 (t : List Nat) (h : 39 ≤ t.length) :
    read_BMS 3 t =
      some [⟨t.getD 8 0, t.getD 1 0, t.getD 2 0, t.getD 3 0⟩,
       ⟨t.getD 23 0, t.getD 16 0, t.getD 17 0, t.getD 18 0⟩,
       ⟨t.getD 38 0, t.getD 31 0, t.getD 32 0, t.getD 33 0⟩] := by
  unfold read_BMS
  simp only [readModuleRow_some t 8 1 2 3 (by omega) (by omega) (by omega) (by omega),
             readModuleRow_some t 23 16 17 18 (by omega) (by omega) (by omega) (by omega),
             readModuleRow_some t 38 31 32 33 (by omega) (by omega) (by omega) (by omega)]
  rfl

/-- Evaluation of the `n_modules = 4` branch of `read_BMS` on a stream of
at least 54 tokens. -/
theorem read_BMS_4 (t : List Nat) (h : 54 ≤ t.length) :
    read_BMS 4 t =
      some [⟨t.getD 8 0, t.getD 1 0, t.getD 2 0, t.getD 3 0⟩,
       ⟨t.getD 23 0, t.getD 16 0, t.getD 17 0, t.getD 18 0⟩,
       ⟨t.getD 38 0, t.getD 31 0, t.getD 32 0, t.getD 33 0⟩,
       ⟨t.getD 53 0, t.getD 46 0, t.getD 47 0, t.getD 48 0⟩] := by
  unfold read_BMS
  simp only [readModuleRow_some t 8 1 2 3 (by omega) (by omega) (by omega) (by omega),
             readModuleRow_some t 23 16 17 18 (by omega) (by omega) (by omega) (by omega),
             readModuleRow_some t 38 31 32 33 (by omega) (by omega) (by omega) (by omega),
             readModuleRow_some t 53 46 47 48 (by omega) (by omega) (by omega) (by omega)]
  rfl

/-- Evaluation of the `n_modules = 5` branch of `read_BMS` on a stream of
at least 69 tokens. -/
theorem read_BMS_5 (t : List Nat) (h : 69 ≤ t.length) :
    read_BMS 5 t =
      some [⟨t.getD 8 0, t.getD 1 0, t.getD 2 0, t.getD 3 0⟩,
       ⟨t.getD 23 0, t.getD 16 0, t.getD 17 0, t.getD 18 0⟩,
       ⟨t.getD 38 0, t.getD 31 0, t.getD 32 0, t.getD 33 0⟩,
       ⟨t.getD 53 0, t.getD 46 0, t.getD 47 0, t.getD 48 0⟩,
       ⟨t.getD 68 0, t.getD 61 0, t.getD 62 0, t.getD 63 0⟩] := by
  unfold read_BMS
  simp only [readModuleRow_some t 8 1 2 3 (by omega) (by omega) (by omega) (by omega),
             readModuleRow_some t 23 16 17 18 (by omega) (by omega) (by omega) (by omega),
             readModuleRow_some t 38 31 32 33 (by omega) (by omega) (by omega) (by omega),
             readModuleRow_some t 53 46 47 48 (by omega) (by omega) (by omega) (by omega),
             readModuleRow_some t 68 61 62 63 (by omega) (by omega) (by omega) (by omega)]
  rfl

/-- Evaluation of the `n_modules = 6` branch of `read_BMS` on a stream of
at least 84 tokens. -/
theorem read_BMS_6 (t : List Nat) (h : 84 ≤ t.length) :
    read_BMS 6 t =
      some [⟨t.getD 8 0, t.getD 1 0, t.getD 2 0, t.getD 3 0⟩,
       ⟨t.getD 23 0, t.getD 16 0, t.getD 17 0, t.getD 18 0⟩,
       ⟨t.getD 38 0, t.getD 31 0, t.getD 32 0, t.getD 33 0⟩,
       ⟨t.getD 53 0, t.getD 46 0, t.getD 47 0, t.getD 48 0⟩,
       ⟨t.getD 68 0, t.getD 61 0, t.getD 62 0, t.getD 63 0⟩,
       ⟨t.getD 83 0, t.getD 76 0, t.getD 77 0, t.getD 78 0⟩] := by
  unfold read_BMS
  simp only [readModuleRow_some t 8 1 2 3 (by omega) (by omega) (by omega) (by omega),
             readModuleRow_some t 23 16 17 18 (by omega) (by omega) (by omega) (by omega),
             readModuleRow_some t 38 31 32 33 (by omega) (by omega) (by omega) (by omega),
             readModuleRow_some t 53 46 47 48 (by omega) (by omega) (by omega) (by omega),
             readModuleRow_some t 68 61 62 63 (by omega) (by omega) (by omega) (by omega),
             readModuleRow_some t 83 76 77 78 (by omega) (by omega) (by omega) (by omega)]
  rfl

/-- Evaluation of the `n_modules = 7` branch of `read_BMS` on a stream of
at least 99 tokens. -/
theorem read_BMS_7 (t : List Nat) (h : 99 ≤ t.length) :
    read_BMS 7 t =
      some [⟨t.getD 8 0, t.getD 1 0, t.getD 2 0, t.getD 3 0⟩,
       ⟨t.getD 23 0, t.getD 16 0, t.getD 17 0, t.getD 18 0⟩,
       ⟨t.getD 38 0, t.getD 31 0, t.getD 32 0, t.getD 33 0⟩,
       ⟨t.getD 53 0, t.getD 46 0, t.getD 47 0, t.getD 48 0⟩,
       ⟨t.getD 68 0, t.getD 61 0, t.getD 62 0, t.getD 63 0⟩,
       ⟨t.getD 83 0, t.getD 76 0, t.getD 77 0, t.getD 78 0⟩,
       ⟨t.getD 98 0, t.getD 91 0, t.getD 92 0, t.getD 93 0⟩] := by
  unfold read_BMS
  simp only [readModuleRow_some t 8 1 2 3 (by omega) (by omega) (by omega) (by omega),
             readModuleRow_some t 23 16 17 18 (by omega) (by omega) (by omega) (by omega),
             readModuleRow_some t 38 31 32 33 (by omega) (by omega) (by omega) (by omega),
             readModuleRow_some t 53 46 47 48 (by omega) (by omega) (by omega) (by omega),
             readModuleRow_some t 68 61 62 63 (by omega) (by omega) (by omega) (by omega),
             readModuleRow_some t 83 76 77 78 (by omega) (by omega) (by omega) (by omega),
             readModuleRow_some t 98 91 92 93 (by omega) (by omega) (by omega) (by omega)]
  rfl

/-- Evaluation of the `n_modules = 8` branch of `read_BMS` on a stream of
at least 114 tokens. -/
theorem read_BMS_8 (t : List Nat) (h : 114 ≤ t.length) :
    read_BMS 8 t =
      some [⟨t.getD 8 0, t.getD 1 0, t.getD 2 0, t.getD 3 0⟩,
       ⟨t.getD 23 0, t.getD 16 0, t.getD 17 0, t.getD 18 0⟩,
       ⟨t.getD 38 0, t.getD 31 0, t.getD 32 0, t.getD 33 0⟩,
       ⟨t.getD 53 0, t.getD 46 0, t.getD 47 0, t.getD 48 0⟩,
       ⟨t.getD 68 0, t.getD 61 0, t.getD 62 0, t.getD 63 0⟩,
       ⟨t.getD 83 0, t.getD 76 0, t.getD 77 0, t.getD 78 0⟩,
       ⟨t.getD 98 0, t.getD 91 0, t.getD 92 0, t.getD 93 0⟩,
       ⟨t.getD 113 0, t.getD 106 0, t.getD 107 0, t.getD 108 0⟩] := by
  unfold read_BMS
  simp only [readModuleRow_some t 8 1 2 3 (by omega) (by omega) (by omega) (by omega),
             readModuleRow_some t 23 16 17 18 (by omega) (by omega) (by omega) (by omega),
             readModuleRow_some t 38 31 32 33 (by omega) (by omega) (by omega) (by omega),
             readModuleRow_some t 53 46 47 48 (by omega) (by omega) (by omega) (by omega),
             readModuleRow_some t 68 61 62 63 (by omega) (by omega) (by omega) (by omega),
             readModuleRow_some t 83 76 77 78 (by omega) (by omega) (by omega) (by omega),
             readModuleRow_some t 98 91 92 93 (by omega) (by omega) (by omega) (by omega),
             readModuleRow_some t 113 106 107 108 (by omega) (by omega) (by omega) (by omega)]
  rfl

/-- Evaluation of the `n_modules = 1` branch of `read_SOC` on a stream of
at least 9 tokens. -/
theorem read_SOC_1 (t : List Nat) (h : 9 ≤ t.length) :
    read_SOC 1 t = some [t.getD 8 0] := by
  unfold read_SOC
  simp only [tok_some t 8 (by omega)]
  rfl

/-- Evaluation of the `n_modules = 2` branch of `read_SOC` on a stream of
at least 24 tokens. -/
theorem read_SOC_2 (t : List Nat) (h : 24 ≤ t.length) :
    read_SOC 2 t = some [t.getD 8 0, t.getD 23 0] := by
  unfold read_SOC
  simp only [tok_some t 8 (by omega),
             tok_some t 23 (by omega)]
  rfl

/-- Evaluation of the `n_modules = 3` branch of `read_SOC` on a stream of
at least 39 tokens. -/
theorem read_SOC_3 (t : List Nat) (h : 39 ≤ t.length) :
    read_SOC 3 t = some [t.getD 8 0, t.getD 23 0, t.getD 38 0] := by
  unfold read_SOC
  simp only [tok_some t 8 (by omega),
             tok_some t 23 (by omega),
             tok_some t 38 (by omega)]
  rfl

/-- Evaluation of the `n_modules = 4` branch of `read_SOC` on a stream of
at least 54 tokens. -/
theorem read_SOC_4 (t : List Nat) (h : 54 ≤ t.length) :
    read_SOC 4 t = some [t.getD 8 0, t.getD 23 0, t.getD 38 0, t.getD 53 0] := by
  unfold read_SOC
  simp only [tok_some t 8 (by omega),
             tok_some t 23 (by omega),
             tok_some t 38 (by omega),
             tok_some t 53 (by omega)]
  rfl

/-- Evaluation of the `n_modules = 5` branch of `read_SOC` on a stream of
at least 69 tokens. -/
theorem read_SOC_5 (t : List Nat) (h : 69 ≤ t.length) :
    read_SOC 5 t = some [t.getD 8 0, t.getD 23 0, t.getD 38 0, t.getD 53 0, t.getD 68 0] := by
  unfold read_SOC
  simp only [tok_some t 8 (by omega),
             tok_some t 23 (by omega),
             tok_some t 38 (by omega),
             tok_some t 53 (by omega),
             tok_some t 68 (by omega)]
  rfl

/-- Evaluation of the `n_modules = 6` branch of `read_SOC` on a stream of
at least 84 tokens. -/
theorem read_SOC_6 (t : List Nat) (h : 84 ≤ t.length) :
    read_SOC 6 t = some [t.getD 8 0, t.getD 23 0, t.getD 38 0, t.getD 53 0, t.getD 68 0, t.getD 83 0] := by
  unfold read_SOC
  simp only [tok_some t 8 (by omega),
             tok_some t 23 (by omega),
             tok_some t 38 (by omega),
             tok_some t 53 (by omega),
             tok_some t 68 (by omega),
             tok_some t 83 (by omega)]
  rfl

/-- Evaluation of the `n_modules = 7` branch of `read_SOC` on a stream of
at least 99 tokens. -/
theorem read_SOC_7 (t : List Nat) (h : 99 ≤ t.length) :
    read_SOC 7 t = some [t.getD 8 0, t.getD 23 0, t.getD 38 0, t.getD 53 0, t.getD 68 0, t.getD 83 0, t.getD 98 0] := by
  unfold read_SOC
  simp only [tok_some t 8 (by omega),
             tok_some t 23 (by omega),
             tok_some t 38 (by omega),
             tok_some t 53 (by omega),
             tok_some t 68 (by omega),
             tok_some t 83 (by omega),
             tok_some t 98 (by omega)]
  rfl

/-- Evaluation of the `n_modules = 8` branch of `read_SOC` on a stream of
at least 114 tokens. -/
theorem read_SOC_8 (t : List Nat) (h : 114 ≤ t.length) :
    read_SOC 8 t = some [t.getD 8 0, t.getD 23 0, t.getD 38 0, t.getD 53 0, t.getD 68 0, t.getD 83 0, t.getD 98 0, t.getD 113 0] := by
  unfold read_SOC
  simp only [tok_some t 8 (by omega),
             tok_some t 23 (by omega),
             tok_some t 38 (by omega),
             tok_some t 53 (by omega),
             tok_some t 68 (by omega),
             tok_some t 83 (by omega),
             tok_some t 98 (by omega),
             tok_some t 113 (by omega)]
  rfl

/-- Claim C1: for a requested module count in 1..8 and any received token
stream of at least `15*(n-1)+9` tokens, `read_BMS` succeeds with exactly
`n` records, and record `i` takes its state of charge from token `15*i+8`,
its voltage from token `15*i+1`, its current from token `15*i+2` and its
temperature from token `15*i+3`. -/
theorem read_BMS_stride (n : Nat) (h1 : 1 ≤ n) (h8 : n ≤ 8) (t : List Nat)
    (hlen : 15 * (n - 1) + 9 ≤ t.length) (i : Nat) (hi : i < n) :
    (read_BMS n t).isSome = true ∧
    ((read_BMS n t).getD []).length = n ∧
    ((read_BMS n t).getD []).getD i ⟨0, 0, 0, 0⟩ =
      ⟨t.getD (15 * i + 8) 0, t.getD (15 * i + 1) 0,
       t.getD (15 * i + 2) 0, t.getD (15 * i + 3) 0⟩ := by
  interval_cases n
  · rw [read_BMS_1 t (by omega)]
    interval_cases i
    exact ⟨rfl, rfl, rfl⟩
  · rw [read_BMS_2 t (by omega)]
    interval_cases i <;> exact ⟨rfl, rfl, rfl⟩
  · rw [read_BMS_3 t (by omega)]
    interval_cases i <;> exact ⟨rfl, rfl, rfl⟩
  · rw [read_BMS_4 t (by omega)]
    interval_cases i <;> exact ⟨rfl, rfl, rfl⟩
  · rw [read_BMS_5 t (by omega)]
    interval_cases i <;> exact ⟨rfl, rfl, rfl⟩
  · rw [read_BMS_6 t (by omega)]
    interval_cases i <;> exact ⟨rfl, rfl, rfl⟩
  · rw [read_BMS_7 t (by omega)]
    interval_cases i <;> exact ⟨rfl, rfl, rfl⟩
  · rw [read_BMS_8 t (by omega)]
    interval_cases i <;> exact ⟨rfl, rfl, rfl⟩

theorem read_BMS_stride_witness :
    ((read_BMS 1 exampleTokens).isSome = true ∧
     ((read_BMS 1 exampleTokens).getD []).length = 1 ∧
     ((read_BMS 1 exampleTokens).getD []).getD 0 ⟨0, 0, 0, 0⟩ =
       ⟨exampleTokens.getD (15 * 0 + 8) 0, exampleTokens.getD (15 * 0 + 1) 0,
        exampleTokens.getD (15 * 0 + 2) 0, exampleTokens.getD (15 * 0 + 3) 0⟩) ∧
    read_BMS 1 exampleTokens = some [⟨100, 1, 2, 3⟩] :=
  ⟨read_BMS_stride 1 (by decide) (by decide) exampleTokens (by decide) 0 (by decide),
   by decide⟩

/-- Claim C5: for each module count in 1..8 the largest token subscript the
unrolled decoder uses is `8+15*(n-1)`, every subscript it uses is below the
required count `15*(n-1)+9`, and on any stream with at least that many
tokens both decoders succeed: the out-of-bounds (`IndexError`) branch is
unreachable. -/
theorem read_BMS_access_bound (n : Nat) (h1 : 1 ≤ n) (h8 : n ≤ 8)
    (t : List Nat) (hlen : 15 * (n - 1) + 9 ≤ t.length) :
    (BMS_offsets n).foldr max 0 = 8 + 15 * (n - 1) ∧
    ((BMS_offsets n).all fun k => decide (k < 15 * (n - 1) + 9)) = true ∧
    (read_BMS n t).isSome = true ∧
    (read_SOC n t).isSome = true := by
  interval_cases n
  · exact ⟨by decide, by decide, by rw [read_BMS_1 t (by omega)]; rfl,
      by rw [read_SOC_1 t (by omega)]; rfl⟩
  · exact ⟨by decide, by decide, by rw [read_BMS_2 t (by omega)]; rfl,
      by rw [read_SOC_2 t (by omega)]; rfl⟩
  · exact ⟨by decide, by decide, by rw [read_BMS_3 t (by omega)]; rfl,
      by rw [read_SOC_3 t (by omega)]; rfl⟩
  · exact ⟨by decide, by decide, by rw [read_BMS_4 t (by omega)]; rfl,
      by rw [read_SOC_4 t (by omega)]; rfl⟩
  · exact ⟨by decide, by decide, by rw [read_BMS_5 t (by omega)]; rfl,
      by rw [read_SOC_5 t (by omega)]; rfl⟩
  · exact ⟨by decide, by decide, by rw [read_BMS_6 t (by omega)]; rfl,
      by rw [read_SOC_6 t (by omega)]; rfl⟩
  · exact ⟨by decide, by decide, by rw [read_BMS_7 t (by omega)]; rfl,
      by rw [read_SOC_7 t (by omega)]; rfl⟩
  · exact ⟨by decide, by decide, by rw [read_BMS_8 t (by omega)]; rfl,
      by rw [read_SOC_8 t (by omega)]; rfl⟩

theorem read_BMS_access_bound_witness :
    (BMS_offsets 3).foldr max 0 = 8 + 15 * (3 - 1) ∧
    ((BMS_offsets 3).all fun k => decide (k < 15 * (3 - 1) + 9)) = true ∧
    (read_BMS 3 (List.range 39)).isSome = true ∧
    (read_SOC 3 (List.range 39)).isSome = true :=
  read_BMS_access_bound 3 (by decide) (by decide) (List.range 39) (by decide)

/-- Claim C9: on the same sufficiently long token stream, the state-of-charge
column of the full decode `read_BMS` agrees element-wise with the SOC-only
decode `read_SOC` for every module count in 1..8. -/
theorem read_SOC_agrees_read_BMS (n : Nat) (h1 : 1 ≤ n) (h8 : n ≤ 8)
    (t : List Nat) (hlen : 15 * (n - 1) + 9 ≤ t.length) :
    (read_BMS n t).map (List.map ModuleTelemetry.stateOfCharge) = read_SOC n t := by
  interval_cases n
  · rw [read_BMS_1 t (by omega), read_SOC_1 t (by omega)]
    rfl
  · rw [read_BMS_2 t (by omega), read_SOC_2 t (by omega)]
    rfl
  · rw [read_BMS_3 t (by omega), read_SOC_3 t (by omega)]
    rfl
  · rw [read_BMS_4 t (by omega), read_SOC_4 t (by omega)]
    rfl
  · rw [read_BMS_5 t (by omega), read_SOC_5 t (by omega)]
    rfl
  · rw [read_BMS_6 t (by omega), read_SOC_6 t (by omega)]
    rfl
  · rw [read_BMS_7 t (by omega), read_SOC_7 t (by omega)]
    rfl
  · rw [read_BMS_8 t (by omega), read_SOC_8 t (by omega)]
    rfl

theorem read_SOC_agrees_read_BMS_witness :
    (read_BMS 2 (List.range 24)).map (List.map ModuleTelemetry.stateOfCharge) =
      read_SOC 2 (List.range 24) :=
  read_SOC_agrees_read_BMS 2 (by decide) (by decide) (List.range 24) (by decide)

/-- Out-of-range module counts fall through every branch of both decoders
and return the untouched zero-initialised arrays. -/
theorem read_out_of_range_zeros (n : Nat) (t : List Nat) (h : n = 0 ∨ 9 ≤ n) :
    read_BMS n t = some (List.replicate n ⟨0, 0, 0, 0⟩) ∧
    read_SOC n t = some (List.replicate n 0) := by
  have e1 : (n = 1) = False := eq_false (by omega)
  have e2 : (n = 2) = False := eq_false (by omega)
  have e3 : (n = 3) = False := eq_false (by omega)
  have e4 : (n = 4) = False := eq_false (by omega)
  have e5 : (n = 5) = False := eq_false (by omega)
  have e6 : (n = 6) = False := eq_false (by omega)
  have e7 : (n = 7) = False := eq_false (by omega)
  have e8 : (n = 8) = False := eq_false (by omega)
  constructor
  · unfold read_BMS
    simp only [e1, e2, e3, e4, e5, e6, e7, e8, ite_false]
    rfl
  · unfold read_SOC
    simp only [e1, e2, e3, e4, e5, e6, e7, e8, ite_false]
    rfl

/-- Claim C2 (refuted by the code): a request for 9 modules (out of the 1..8
range) does not fail; both decoders return the default-initialised all-zero
arrays of the requested shape, and a request for 0 modules returns an empty
array. -/
theorem read_BMS_out_of_range_returns_zeros :
    read_BMS 9 [] = some (List.replicate 9 ⟨0, 0, 0, 0⟩) ∧
    read_SOC 9 [] = some (List.replicate 9 0) ∧
    read_BMS 0 [] = some [] :=
  ⟨(read_out_of_range_zeros 9 [] (by omega)).1,
   (read_out_of_range_zeros 9 [] (by omega)).2,
   (read_out_of_range_zeros 0 [] (by omega)).1⟩

/-- Claim C3 (refuted by the code): a token stream shorter than required
produces no typed error carrying the required and received counts; the
blanket exception handler of the source prints a diagnostic and the caller
receives the implicit `None`, modelled as `none`.  With 8 tokens and one
module requested (9 tokens required) both decoders return `none`. -/
theorem read_BMS_short_stream_none :
    read_BMS 1 [0, 1, 2, 3, 4, 5, 6, 7] = none ∧
    read_SOC 1 [0, 1, 2, 3, 4, 5, 6, 7] = none := by decide

end SolarControl
